import Mathlib

/-!
Verification of the notification distribution subsystem of the chat
repository (notify_server) against its specification.

The embedding models:
* the JSON payload values consumed from the change-notification channels,
* the payload structures `ChatUpdated`, `ChatMessageAdded`, `ChatNameUpdated`
  and the domain event type `AppEvent` (src/notify_server/src/notify.rs),
* the decoder `Notification.load` and the membership-diff function
  `get_affected_chat_user_ids`,
* the dispatch step and the listener loop body of `setup_pg_listener`,
* the authentication middleware `verify_token`
  (src/chat_core/src/middlewares/auth.rs).

Rust `i64` member identifiers are modelled as `Int` with the range
invariant `I64Range`; the `as u64` wrapping cast is `i64ToU64`.
Rust panics (`unwrap` / `expect`) are modelled as an explicit `panic`
outcome, distinct from a returned `Err` value.
-/

/-- A JSON value, the shape `serde_json` parses payload text into.
Numbers are restricted to integers: every numeric field consumed by the
decoder is an integer (identifiers, timestamps). -/
inductive Json where
  | null : Json
  | bool (b : Bool) : Json
  | num (n : Int) : Json
  | str (s : String) : Json
  | arr (elems : List Json) : Json
  | obj (fields : List (String × Json)) : Json

/-- Look up a field of a JSON object by name (first occurrence wins,
mirroring a JSON map with unique keys). -/
def Json.getField : Json → String → Option Json
  | .obj fields, key =>
      match fields.find? (fun p => p.1 = key) with
      | some p => some p.2
      | none => none
  | _, _ => none

/-- The chat kind. Modelled from the spec: `chat_core`Chat's `ChatType` is not
under src/; the spec lists the kinds single, group, private-channel,
public-channel. -/
inductive ChatType where
  | single : ChatType
  | group : ChatType
  | privateChannel : ChatType
  | publicChannel : ChatType
deriving DecidableEq, Repr

/-- Modelled from the spec: the `Chat` entity of `chat_core` is not under
src/. Spec: identifier, workspace identifier, optional name, chat kind,
member user identifiers (`i64` in the payloads), creation timestamp. -/
structure Chat where
  id : Int
  wsId : Int
  name : Option String
  type : ChatType
  members : List Int
  createdAt : Int
deriving DecidableEq, Repr

/-- Modelled from the spec: the `Message` entity of `chat_core` is not under
src/. Spec: identifier, owning chat identifier, sender identifier, body
text, attachment references, creation timestamp. -/
structure Message where
  id : Int
  chatId : Int
  senderId : Int
  content : String
  files : List String
  createdAt : Int
deriving DecidableEq, Repr

/-- Payload of the `chat_updated` channel (src/notify_server/src/notify.rs,
struct `ChatUpdated`). -/
structure ChatUpdated where
  op : String
  old : Option Chat
  new : Option Chat
deriving DecidableEq, Repr

/-- Payload of the `chat_message_added` channel (struct `ChatMessageAdded`). -/
structure ChatMessageAdded where
  members : List Int
  message : Message
deriving DecidableEq, Repr

/-- Payload of the `chat_name_updated` channel (struct `ChatNameUpdated`). -/
structure ChatNameUpdated where
  chatId : Int
  oldName : String
  newName : String
  members : List Int
deriving DecidableEq, Repr

/-- The domain event enum `AppEvent` (src/notify_server/src/notify.rs),
serialized with the explicit variant tag field `event`. -/
inductive AppEvent where
  | NewChat (chat : Chat) : AppEvent
  | AddToChat (chat : Chat) : AppEvent
  | RemoveFromChat (chat : Chat) : AppEvent
  | NewMessage (message : Message) : AppEvent
  | ChatNameUpdated (payload : ChatNameUpdated) : AppEvent
deriving DecidableEq, Repr

/-- Decode an integer from a JSON value (serde: an `i64` field). -/
def Json.getInt : Json → Except String Int
  | .num n => .ok n
  | _ => .error "expected integer"

/-- Decode a string from a JSON value. -/
def Json.getStr : Json → Except String String
  | .str s => .ok s
  | _ => .error "expected string"

/-- Decode a list of integers (serde: `Vec of i64`). -/
def Json.getIntList : Json → Except String (List Int)
  | .arr elems => elems.mapM Json.getInt
  | _ => .error "expected array of integers"

/-- Decode a list of strings (serde: `Vec of String`). -/
def Json.getStrList : Json → Except String (List String)
  | .arr elems => elems.mapM Json.getStr
  | _ => .error "expected array of strings"

/-- A required field: missing field is a decode error (serde semantics for
a non-`Option` struct field). -/
def Json.reqField (j : Json) (key : String) : Except String Json :=
  match j.getField key with
  | some v => .ok v
  | none => .error ("missing field " ++ key)

/-- An optional string (serde `Option String`: absent or `null` is `none`). -/
def Json.getOptStr (j : Json) (key : String) : Except String (Option String) :=
  match j.getField key with
  | none => .ok none
  | some .null => .ok none
  | some (.str s) => .ok (some s)
  | some _ => .error "expected string or null"

/-- Decode the chat-kind tag (serde fieldless enum: the variant name as a
string; the repository stores kinds in snake_case per the spec wording). -/
def ChatType.fromJson : Json → Except String ChatType
  | .str "single" => .ok .single
  | .str "group" => .ok .group
  | .str "private_channel" => .ok .privateChannel
  | .str "public_channel" => .ok .publicChannel
  | _ => .error "unknown chat type"

/-- Serialize the chat-kind tag. -/
def ChatType.toJson : ChatType → Json
  | .single => .str "single"
  | .group => .str "group"
  | .privateChannel => .str "private_channel"
  | .publicChannel => .str "public_channel"

/-- Decode a `Chat` from a JSON object (serde derive semantics: every
non-`Option` field required, `name` optional, unknown fields ignored). -/
def Chat.fromJson (j : Json) : Except String Chat := do
  let id ← (← j.reqField "id").getInt
  let wsId ← (← j.reqField "ws_id").getInt
  let name ← j.getOptStr "name"
  let ty ← ChatType.fromJson (← j.reqField "type")
  let members ← (← j.reqField "members").getIntList
  let createdAt ← (← j.reqField "created_at").getInt
  .ok ⟨id, wsId, name, ty, members, createdAt⟩

/-- Decode a `Message` from a JSON object. -/
def Message.fromJson (j : Json) : Except String Message := do
  let id ← (← j.reqField "id").getInt
  let chatId ← (← j.reqField "chat_id").getInt
  let senderId ← (← j.reqField "sender_id").getInt
  let content ← (← j.reqField "content").getStr
  let files ← (← j.reqField "files").getStrList
  let createdAt ← (← j.reqField "created_at").getInt
  .ok ⟨id, chatId, senderId, content, files, createdAt⟩

/-- An optional `Chat` field (serde `Option Chat`: absent or `null` is
`none`, otherwise the chat object must decode). -/
def Json.getOptChat (j : Json) (key : String) : Except String (Option Chat) :=
  match j.getField key with
  | none => .ok none
  | some .null => .ok none
  | some v => (Chat.fromJson v).map some

/-- Decode the `chat_updated` payload. -/
def ChatUpdated.fromJson (j : Json) : Except String ChatUpdated := do
  let op ← (← j.reqField "op").getStr
  let old ← j.getOptChat "old"
  let new ← j.getOptChat "new"
  .ok ⟨op, old, new⟩

/-- Decode the `chat_message_added` payload. -/
def ChatMessageAdded.fromJson (j : Json) : Except String ChatMessageAdded := do
  let members ← (← j.reqField "members").getIntList
  let message ← Message.fromJson (← j.reqField "message")
  .ok ⟨members, message⟩

/-- Decode the `chat_name_updated` payload. -/
def ChatNameUpdated.fromJson (j : Json) : Except String ChatNameUpdated := do
  let chatId ← (← j.reqField "chat_id").getInt
  let oldName ← (← j.reqField "old_name").getStr
  let newName ← (← j.reqField "new_name").getStr
  let members ← (← j.reqField "members").getIntList
  .ok ⟨chatId, oldName, newName, members⟩

/-- The Rust i64 range invariant for member identifiers. -/
def I64Range (v : Int) : Prop := -(2 ^ 63) ≤ v ∧ v < 2 ^ 63

instance (v : Int) : Decidable (I64Range v) := by
  unfold I64Range; infer_instance

/-- The wrapping cast `v as u64` applied by the decoder to every `i64`
member identifier: the value modulo 2 to the 64, as the unsigned
registry key. -/
def i64ToU64 (v : Int) : ℕ := (v % 2 ^ 64).toNat

/-- The set of registry keys of a chat's members: each `i64` member
identifier cast `as u64` and collected into a set (`HashSet` in the
source; duplicates collapse, order irrelevant). -/
def memberIdSet (c : Chat) : Finset ℕ := (c.members.map i64ToU64).toFinset

/-- The member-identifier set of a members list, cast `as u64` and
collected (used by the `chat_message_added` and `chat_name_updated`
branches of the decoder). -/
def membersKeySet (members : List Int) : Finset ℕ :=
  (members.map i64ToU64).toFinset

/-- The function `get_affected_chat_user_ids` (src/notify_server/src/notify.rs):
diff old/new members; if identical, no need to notify, otherwise notify
the union of both; one side absent means that side's members; neither
side means empty. -/
def get_affected_chat_user_ids : Option Chat → Option Chat → Finset ℕ
  | some old, some new =>
      let old_user_ids := memberIdSet old
      let new_user_ids := memberIdSet new
      if old_user_ids = new_user_ids then ∅
      else old_user_ids ∪ new_user_ids
  | some old, none => memberIdSet old
  | none, some new => memberIdSet new
  | none, none => ∅

/-- The decoded notification: the affected registry keys and the shared
domain event (struct `Notification` in the source). -/
structure NotificationData where
  user_ids : Finset ℕ
  event : AppEvent
deriving DecidableEq

/-- Outcome of running `Notification.load`: a decoded notification, a
returned `Err` value (anyhow error), or a Rust panic (from `expect`). -/
inductive LoadOutcome where
  | ok (n : NotificationData) : LoadOutcome
  | err (msg : String) : LoadOutcome
  | panic (msg : String) : LoadOutcome
deriving DecidableEq

/-- Holds exactly on the returned-`Err` outcome (a decode failure
surfaced as an error value, not a panic). -/
def LoadOutcome.isErr : LoadOutcome → Bool
  | .err _ => true
  | _ => false

/-- The decoder `Notification.load` (src/notify_server/src/notify.rs): dispatch on the
channel name, decode the payload, compute the affected key set and build
the event. The `INSERT`/`UPDATE`/`DELETE` arms call `expect` on the
`new`/`old` option, which panics when the option is `none`. -/
def Notification.load (ty : String) (payload : Json) : LoadOutcome :=
  match ty with
  | "chat_name_updated" =>
      match ChatNameUpdated.fromJson payload with
      | .error e => .err e
      | .ok p =>
          .ok ⟨membersKeySet p.members, .ChatNameUpdated p⟩
  | "chat_updated" =>
      match ChatUpdated.fromJson payload with
      | .error e => .err e
      | .ok p =>
          let user_ids := get_affected_chat_user_ids p.old p.new
          match p.op with
          | "INSERT" =>
              match p.new with
              | some n => .ok ⟨user_ids, .NewChat n⟩
              | none => .panic "new should exist"
          | "UPDATE" =>
              match p.new with
              | some n => .ok ⟨user_ids, .AddToChat n⟩
              | none => .panic "new should exist"
          | "DELETE" =>
              match p.old with
              | some o => .ok ⟨user_ids, .RemoveFromChat o⟩
              | none => .panic "old should exist"
          | other => .err ("Unknown operation: " ++ other)
  | "chat_message_added" =>
      match ChatMessageAdded.fromJson payload with
      | .error e => .err e
      | .ok p =>
          .ok ⟨membersKeySet p.members, .NewMessage p.message⟩
  | other => .err ("Unknown notification type: " ++ other)

/-- One stream item of the listener's notification stream: a delivered
notification (channel plus payload) or a transport error item. -/
inductive StreamItem where
  | ok (channel : String) (payload : Json) : StreamItem
  | errItem (msg : String) : StreamItem

/-- How the listener task ends on a given stream: the while-let loop ran
the stream to completion (or stopped at a transport error item, which the
pattern rejects), or the task panicked. -/
inductive LoopOutcome where
  | finished : LoopOutcome
  | panicked (msg : String) : LoopOutcome
  | deadlocked : LoopOutcome
deriving DecidableEq

/-- The registry (`UserMap`): user key to fan-out sender handle; sender
handles are numbered so removal and replacement are observable. -/
def UserMap : Type := ℕ → Option ℕ

/-- Result of a dispatch pass over the registry: either the pass
completed, or it deadlocked part-way through; both carry the registry as
it stands, the deliveries made and the warnings logged up to that
point. -/
inductive DispatchResult where
  | done (users : UserMap) (delivered : List (ℕ × AppEvent))
      (warnings : List String) : DispatchResult
  | deadlocked (users : UserMap) (delivered : List (ℕ × AppEvent))
      (warnings : List String) : DispatchResult

/-- The registry as a dispatch pass left it. -/
def DispatchResult.users : DispatchResult → UserMap
  | .done u _ _ => u
  | .deadlocked u _ _ => u

/-- The deliveries a dispatch pass made. -/
def DispatchResult.delivered : DispatchResult → List (ℕ × AppEvent)
  | .done _ d _ => d
  | .deadlocked _ d _ => d

/-- The warnings a dispatch pass logged. -/
def DispatchResult.warnings : DispatchResult → List String
  | .done _ _ w => w
  | .deadlocked _ _ w => w

/-- The dispatch step of the loop body of `setup_pg_listener` for one
user id. The source looks the sender up with `users.get`, whose returned
guard holds the map shard's read lock for the whole `if let` block. On a
successful send nothing else happens. On a failed send it logs a warning
and then calls `users.remove` on the same key while that guard is still
held; the remove needs the same shard's write lock, so the task
deadlocks: the entry is never removed and the step never completes.
Whether a `send` on handle `tx` succeeds is the environment's
`sendOk tx` (closed channel means failure). -/
def dispatchOne (sendOk : ℕ → Bool) (event : AppEvent) (users : UserMap)
    (uid : ℕ) : DispatchResult :=
  match users uid with
  | none => .done users [] []
  | some tx =>
      if sendOk tx then
        .done users [(uid, event)] []
      else
        .deadlocked users []
          ["Failed to send notification to user " ++ toString uid]

/-- The `for user_id in notification.user_ids` loop: run the dispatch
step for each user id of the list in turn, threading the registry and
collecting deliveries and warnings in order; a deadlocked step hangs the
whole pass, so the remaining ids are never dispatched. -/
def dispatchAll (sendOk : ℕ → Bool) (event : AppEvent) :
    List ℕ → UserMap → DispatchResult
  | [], users => .done users [] []
  | uid :: rest, users =>
      match dispatchOne sendOk event users uid with
      | .done users1 d1 w1 =>
          match dispatchAll sendOk event rest users1 with
          | .done users2 d2 w2 => .done users2 (d1 ++ d2) (w1 ++ w2)
          | .deadlocked users2 d2 w2 =>
              .deadlocked users2 (d1 ++ d2) (w1 ++ w2)
      | .deadlocked users1 d1 w1 => .deadlocked users1 d1 w1

/-- The full dispatch of one decoded notification: iterate the affected
user-id set (each element exactly once; the enumeration order of the
`HashSet` is unspecified, fixed here as ascending) and run the dispatch
step for each. -/
def dispatchNotification (sendOk : ℕ → Bool) (n : NotificationData)
    (users : UserMap) : DispatchResult :=
  dispatchAll sendOk n.event (n.user_ids.sort (· ≤ ·)) users

/-- The listener loop of `setup_pg_listener`: `while let Some(Ok(notif))`
over the stream; each notification is decoded by
`Notification.load(..).unwrap()` — a returned decode error makes `unwrap`
panic, ending the task; a decoded notification is dispatched to every
affected user. Returns the final registry, all deliveries in order, and
how the loop ended. -/
def listenerLoop (sendOk : ℕ → Bool) :
    List StreamItem → UserMap → UserMap × List (ℕ × AppEvent) × LoopOutcome
  | [], users => (users, [], .finished)
  | .errItem _ :: _, users => (users, [], .finished)
  | .ok ch payload :: rest, users =>
      match Notification.load ch payload with
      | .err e =>
          (users, [], .panicked ("called unwrap on an Err value: " ++ e))
      | .panic m => (users, [], .panicked m)
      | .ok n =>
          match dispatchNotification sendOk n users with
          | .done users1 d1 _ =>
              let tail := listenerLoop sendOk rest users1
              (tail.1, d1 ++ tail.2.1, tail.2.2)
          | .deadlocked users1 d1 _ => (users1, d1, .deadlocked)

/-- HTTP status codes produced around the event-stream route. -/
inductive StatusCode where
  | ok : StatusCode
  | unauthorized : StatusCode
  | forbidden : StatusCode
  | other (code : ℕ) : StatusCode
deriving DecidableEq

/-- A response: a status and a body. -/
structure Response where
  status : StatusCode
  body : String
deriving DecidableEq

/-- The Authorization header of an incoming request, as the typed-header
extractor sees it: either it parses to a bearer token or extraction fails
(missing or malformed header). -/
inductive AuthHeader where
  | malformed (e : String) : AuthHeader
  | bearer (token : String) : AuthHeader

/-- The middleware `verify_token` (src/chat_core/src/middlewares/auth.rs): extract the
bearer token; on extraction failure respond 401 Unauthorized; verify the
token; on verification failure respond 403 Forbidden; otherwise run the
inner handler on the request extended with the verified user. `α` is the
verified-user type; `verify` is the `TokenVerify` capability of the
state. The boolean records whether the inner handler (`next`) ran. -/
def verify_token {α : Type} (verify : String → Except String α)
    (hdr : AuthHeader) (next : α → Response) : Response × Bool :=
  match hdr with
  | .malformed e =>
      (⟨.unauthorized, "failed to parse authorization header: " ++ e⟩, false)
  | .bearer tok =>
      match verify tok with
      | .error e =>
          (⟨.forbidden, "failed to verify token: " ++ e⟩, false)
      | .ok user => (next user, true)

/-- The serialized fields of a `Chat` (serde derive: field name to value,
`Option` name as the value or `null`). -/
def chatFields (c : Chat) : List (String × Json) :=
  [("id", .num c.id), ("ws_id", .num c.wsId),
   ("name", match c.name with | none => .null | some s => .str s),
   ("type", ChatType.toJson c.type),
   ("members", .arr (c.members.map Json.num)),
   ("created_at", .num c.createdAt)]

/-- The serialized fields of a `Message`. -/
def messageFields (m : Message) : List (String × Json) :=
  [("id", .num m.id), ("chat_id", .num m.chatId),
   ("sender_id", .num m.senderId), ("content", .str m.content),
   ("files", .arr (m.files.map Json.str)),
   ("created_at", .num m.createdAt)]

/-- The serialized fields of a `ChatNameUpdated` payload. -/
def chatNameUpdatedFields (p : ChatNameUpdated) : List (String × Json) :=
  [("chat_id", .num p.chatId), ("old_name", .str p.oldName),
   ("new_name", .str p.newName),
   ("members", .arr (p.members.map Json.num))]

/-- The explicit variant tag of an `AppEvent` (the value of the `event`
field under the serde attribute `tag = "event"`). -/
def AppEvent.tag : AppEvent → String
  | .NewChat _ => "NewChat"
  | .AddToChat _ => "AddToChat"
  | .RemoveFromChat _ => "RemoveFromChat"
  | .NewMessage _ => "NewMessage"
  | .ChatNameUpdated _ => "ChatNameUpdated"

/-- Serialize an `AppEvent`: internally tagged representation — one JSON
object holding the `event` tag field plus the variant payload's fields. -/
def AppEvent.toJson : AppEvent → Json
  | .NewChat c => .obj (("event", .str "NewChat") :: chatFields c)
  | .AddToChat c => .obj (("event", .str "AddToChat") :: chatFields c)
  | .RemoveFromChat c =>
      .obj (("event", .str "RemoveFromChat") :: chatFields c)
  | .NewMessage m => .obj (("event", .str "NewMessage") :: messageFields m)
  | .ChatNameUpdated p =>
      .obj (("event", .str "ChatNameUpdated") :: chatNameUpdatedFields p)

/-- Deserialize an `AppEvent`: read the `event` tag, then decode the
variant payload from the same object (the tag field is ignored by the
payload decoders). -/
def AppEvent.fromJson (j : Json) : Except String AppEvent := do
  let tag ← (← j.reqField "event").getStr
  match tag with
  | "NewChat" => (Chat.fromJson j).map .NewChat
  | "AddToChat" => (Chat.fromJson j).map .AddToChat
  | "RemoveFromChat" => (Chat.fromJson j).map .RemoveFromChat
  | "NewMessage" => (Message.fromJson j).map .NewMessage
  | "ChatNameUpdated" => (ChatNameUpdated.fromJson j).map .ChatNameUpdated
  | other => .error ("unknown event variant: " ++ other)

theorem two_pow_64_eq : (2 : Int) ^ 64 = 18446744073709551616 := by norm_num

theorem two_pow_63_eq : (2 : Int) ^ 63 = 9223372036854775808 := by norm_num

/-- The wrapping cast agrees with the mathematical value modulo 2 ^ 64. -/
theorem i64ToU64_eq_emod (v : Int) : (i64ToU64 v : Int) = v % 2 ^ 64 := by
  unfold i64ToU64
  rw [two_pow_64_eq]
  omega

/-- The wrapping cast is injective on the i64 range. -/
theorem i64ToU64_inj {v w : Int} (hv : I64Range v) (hw : I64Range w)
    (h : i64ToU64 v = i64ToU64 w) : v = w := by
  unfold i64ToU64 at h
  unfold I64Range at hv hw
  rw [two_pow_63_eq] at hv hw
  rw [two_pow_64_eq] at h
  omega

/-- A negative i64 lands at or above 2 ^ 63 under the wrapping cast. -/
theorem i64ToU64_neg {v : Int} (hv : I64Range v) (h : v < 0) :
    2 ^ 63 ≤ i64ToU64 v := by
  unfold i64ToU64
  unfold I64Range at hv
  rw [two_pow_63_eq] at hv
  rw [two_pow_64_eq]
  have hn : (2 : ℕ) ^ 63 = 9223372036854775808 := by norm_num
  rw [hn]
  omega

@[simp]
theorem Json.getField_obj_cons (k : String) (v : Json)
    (rest : List (String × Json)) (key : String) :
    (Json.obj ((k, v) :: rest)).getField key =
      if k = key then some v else (Json.obj rest).getField key := by
  by_cases h : k = key <;> simp [Json.getField, List.find?_cons, h]

@[simp]
theorem Json.getField_obj_nil (key : String) :
    (Json.obj []).getField key = none := by
  simp [Json.getField]

/-- Decoding an array of serialized integers gives back the list. -/
theorem getIntList_map (l : List Int) :
    Json.getIntList (Json.arr (l.map Json.num)) = Except.ok l := by
  simp only [Json.getIntList]
  induction l with
  | nil => rfl
  | cons a tl ih =>
      simp only [List.map_cons, List.mapM_cons, Json.getInt, ih]
      rfl

/-- Decoding an array of serialized strings gives back the list. -/
theorem getStrList_map (l : List String) :
    Json.getStrList (Json.arr (l.map Json.str)) = Except.ok l := by
  simp only [Json.getStrList]
  induction l with
  | nil => rfl
  | cons a tl ih =>
      simp only [List.map_cons, List.mapM_cons, Json.getStr, ih]
      rfl

theorem load_chat_message_added (j : Json) (p : ChatMessageAdded)
    (h : ChatMessageAdded.fromJson j = .ok p) :
    Notification.load "chat_message_added" j =
      .ok ⟨membersKeySet p.members, .NewMessage p.message⟩ := by
  simp only [Notification.load, h]

theorem load_chat_name_updated (j : Json) (p : ChatNameUpdated)
    (h : ChatNameUpdated.fromJson j = .ok p) :
    Notification.load "chat_name_updated" j =
      .ok ⟨membersKeySet p.members, .ChatNameUpdated p⟩ := by
  simp only [Notification.load, h]

theorem load_chat_updated_insert (j : Json) (p : ChatUpdated) (n : Chat)
    (h : ChatUpdated.fromJson j = .ok p) (hop : p.op = "INSERT")
    (hnew : p.new = some n) :
    Notification.load "chat_updated" j =
      .ok ⟨get_affected_chat_user_ids p.old p.new, .NewChat n⟩ := by
  simp only [Notification.load, h, hop, hnew]

theorem load_chat_updated_insert_missing (j : Json) (p : ChatUpdated)
    (h : ChatUpdated.fromJson j = .ok p) (hop : p.op = "INSERT")
    (hnew : p.new = none) :
    Notification.load "chat_updated" j = .panic "new should exist" := by
  simp only [Notification.load, h, hop, hnew]

theorem load_chat_updated_unknown_op (j : Json) (p : ChatUpdated)
    (h : ChatUpdated.fromJson j = .ok p) (h1 : p.op ≠ "INSERT")
    (h2 : p.op ≠ "UPDATE") (h3 : p.op ≠ "DELETE") :
    Notification.load "chat_updated" j =
      .err ("Unknown operation: " ++ p.op) := by
  simp only [Notification.load, h]

theorem load_unknown_channel (ch : String) (j : Json)
    (h1 : ch ≠ "chat_updated") (h2 : ch ≠ "chat_message_added")
    (h3 : ch ≠ "chat_name_updated") :
    Notification.load ch j = .err ("Unknown notification type: " ++ ch) := by
  simp only [Notification.load]

theorem load_chat_updated_update (j : Json) (p : ChatUpdated) (n : Chat)
    (h : ChatUpdated.fromJson j = .ok p) (hop : p.op = "UPDATE")
    (hnew : p.new = some n) :
    Notification.load "chat_updated" j =
      .ok ⟨get_affected_chat_user_ids p.old p.new, .AddToChat n⟩ := by
  simp only [Notification.load, h, hop, hnew]

theorem load_chat_updated_delete (j : Json) (p : ChatUpdated) (o : Chat)
    (h : ChatUpdated.fromJson j = .ok p) (hop : p.op = "DELETE")
    (hold : p.old = some o) :
    Notification.load "chat_updated" j =
      .ok ⟨get_affected_chat_user_ids p.old p.new, .RemoveFromChat o⟩ := by
  simp only [Notification.load, h, hop, hold]

theorem load_chat_updated_delete_missing (j : Json) (p : ChatUpdated)
    (h : ChatUpdated.fromJson j = .ok p) (hop : p.op = "DELETE")
    (hold : p.old = none) :
    Notification.load "chat_updated" j = .panic "old should exist" := by
  simp only [Notification.load, h, hop, hold]

/-- The set `memberIdSet c` is the image of the member list's set under the cast. -/
theorem memberIdSet_eq_image (c : Chat) :
    memberIdSet c = c.members.toFinset.image i64ToU64 := by
  ext x
  simp [memberIdSet, List.mem_map]

/-- Under the i64 range invariant, equality of the cast key sets is
equality of the member-id sets. -/
theorem memberIdSet_eq_iff {old new : Chat}
    (hold : ∀ v ∈ old.members, I64Range v)
    (hnew : ∀ v ∈ new.members, I64Range v) :
    memberIdSet old = memberIdSet new ↔
      old.members.toFinset = new.members.toFinset := by
  constructor
  · intro h
    ext x
    constructor
    · intro hx
      have hximg : i64ToU64 x ∈ memberIdSet new := by
        rw [← h, memberIdSet_eq_image]
        exact Finset.mem_image_of_mem _ hx
      rw [memberIdSet_eq_image] at hximg
      obtain ⟨y, hy, hyx⟩ := Finset.mem_image.mp hximg
      have : y = x :=
        i64ToU64_inj (hnew y (List.mem_toFinset.mp hy))
          (hold x (List.mem_toFinset.mp hx)) hyx
      rwa [← this]
    · intro hx
      have hximg : i64ToU64 x ∈ memberIdSet old := by
        rw [h, memberIdSet_eq_image]
        exact Finset.mem_image_of_mem _ hx
      rw [memberIdSet_eq_image] at hximg
      obtain ⟨y, hy, hyx⟩ := Finset.mem_image.mp hximg
      have : y = x :=
        i64ToU64_inj (hold y (List.mem_toFinset.mp hy))
          (hnew x (List.mem_toFinset.mp hx)) hyx
      rwa [← this]
  · intro h
    rw [memberIdSet_eq_image, memberIdSet_eq_image, h]

/-- The user ids of the deliveries of a dispatch pass form a subsequence
of the iterated id list: each id is sent to at most as often as it is
iterated. -/
theorem dispatchAll_fst_sublist (sendOk : ℕ → Bool) (event : AppEvent)
    (l : List ℕ) (users : UserMap) :
    ((dispatchAll sendOk event l users).delivered.map Prod.fst).Sublist l := by
  induction l generalizing users with
  | nil => simp [dispatchAll, DispatchResult.delivered]
  | cons uid rest ih =>
      simp only [dispatchAll]
      rcases hreg : users uid with _ | tx
      · have ih2 := ih users
        rcases htail : dispatchAll sendOk event rest users with
          ⟨u2, d2, w2⟩ | ⟨u2, d2, w2⟩ <;>
          rw [htail] at ih2 <;>
          simp only [dispatchOne, hreg, htail, DispatchResult.delivered,
            List.nil_append] at ih2 ⊢ <;>
          exact ih2.cons uid
      · rcases hsend : sendOk tx with _ | _
        · simp only [dispatchOne, hreg, hsend, Bool.false_eq_true,
            if_false, DispatchResult.delivered, List.map_nil]
          exact List.nil_sublist _
        · have ih2 := ih users
          rcases htail : dispatchAll sendOk event rest users with
            ⟨u2, d2, w2⟩ | ⟨u2, d2, w2⟩ <;>
            rw [htail] at ih2 <;>
            simp only [dispatchOne, hreg, hsend, if_true, htail,
              DispatchResult.delivered, List.cons_append, List.nil_append,
              List.map_cons] at ih2 ⊢ <;>
            exact ih2.cons₂ uid

/-- A dispatch pass over an empty affected set touches nothing and
delivers nothing. -/
theorem dispatchNotification_empty (sendOk : ℕ → Bool) (e : AppEvent)
    (users : UserMap) :
    dispatchNotification sendOk ⟨∅, e⟩ users = .done users [] [] := by
  simp [dispatchNotification, dispatchAll]

/-- Each user id receives at most one delivery per dispatched
notification. -/
theorem dispatchNotification_count_le_one (sendOk : ℕ → Bool)
    (n : NotificationData) (users : UserMap) (uid : ℕ) :
    ((dispatchNotification sendOk n users).delivered.map
      Prod.fst).count uid ≤ 1 := by
  have hsub := dispatchAll_fst_sublist sendOk n.event
    (n.user_ids.sort (· ≤ ·)) users
  have hnd : (n.user_ids.sort (· ≤ ·)).Nodup := n.user_ids.sort_nodup _
  calc ((dispatchNotification sendOk n users).delivered.map
        Prod.fst).count uid
      ≤ (n.user_ids.sort (· ≤ ·)).count uid := hsub.count_le uid
    _ ≤ 1 := List.nodup_iff_count_le_one.mp hnd uid

/-- Decoding the serialized fields of a `Chat` (with the variant tag in
front, which the struct decoder ignores) recovers the chat. -/
theorem chat_fromJson_roundtrip (t : String) (c : Chat) :
    Chat.fromJson (Json.obj (("event", Json.str t) :: chatFields c)) =
      .ok c := by
  obtain ⟨id, wsId, name, ty, members, createdAt⟩ := c
  cases name <;> cases ty <;>
    simp [Chat.fromJson, chatFields, Json.reqField, Json.getOptStr,
      Json.getInt, Json.getStr, ChatType.fromJson, ChatType.toJson,
      getIntList_map, Bind.bind, Except.bind]

/-- Decoding the serialized fields of a `Message` (tag in front) recovers
the message. -/
theorem message_fromJson_roundtrip (t : String) (m : Message) :
    Message.fromJson (Json.obj (("event", Json.str t) :: messageFields m)) =
      .ok m := by
  obtain ⟨id, chatId, senderId, content, files, createdAt⟩ := m
  simp [Message.fromJson, messageFields, Json.reqField, Json.getInt,
    Json.getStr, getStrList_map, Bind.bind, Except.bind]

/-- Decoding the serialized fields of a `ChatNameUpdated` payload (tag in
front) recovers the payload. -/
theorem chatNameUpdated_fromJson_roundtrip (t : String)
    (p : ChatNameUpdated) :
    ChatNameUpdated.fromJson
        (Json.obj (("event", Json.str t) :: chatNameUpdatedFields p)) =
      .ok p := by
  obtain ⟨chatId, oldName, newName, members⟩ := p
  simp [ChatNameUpdated.fromJson, chatNameUpdatedFields, Json.reqField,
    Json.getInt, Json.getStr, getIntList_map, Bind.bind, Except.bind]

/-- C3: for a `chat_updated` payload with both old and new chats present,
the affected user set is empty exactly when the member-id sets of old and
new are equal as sets — and an empty affected set is delivered to no user
— and is the union of both key sets when they differ; with only one side
present it is that side's member set; with neither it is empty. -/
theorem get_affected_chat_user_ids_spec (old new : Chat)
    (hold : ∀ v ∈ old.members, I64Range v)
    (hnew : ∀ v ∈ new.members, I64Range v) :
    (get_affected_chat_user_ids (some old) (some new) = ∅ ↔
        old.members.toFinset = new.members.toFinset)
    ∧ (old.members.toFinset ≠ new.members.toFinset →
        get_affected_chat_user_ids (some old) (some new) =
          memberIdSet old ∪ memberIdSet new)
    ∧ (∀ sendOk users e,
        dispatchNotification sendOk ⟨∅, e⟩ users = .done users [] [])
    ∧ get_affected_chat_user_ids (some old) none = memberIdSet old
    ∧ get_affected_chat_user_ids none (some new) = memberIdSet new
    ∧ get_affected_chat_user_ids none none = ∅ := by
  have hiff := memberIdSet_eq_iff hold hnew
  refine ⟨⟨?_, ?_⟩, ?_, ?_, rfl, rfl, rfl⟩
  · intro h
    by_contra hne
    have hne2 : memberIdSet old ≠ memberIdSet new :=
      fun hh => hne (hiff.mp hh)
    simp only [get_affected_chat_user_ids, if_neg hne2] at h
    have hu := Finset.union_eq_empty.mp h
    exact hne2 (by rw [hu.1, hu.2])
  · intro h
    have heq := hiff.mpr h
    simp only [get_affected_chat_user_ids, if_pos heq]
  · intro h
    have hne2 : memberIdSet old ≠ memberIdSet new :=
      fun hh => h (hiff.mp hh)
    simp only [get_affected_chat_user_ids, if_neg hne2]
  · intro sendOk users e
    exact dispatchNotification_empty sendOk e users

/-- Witness for C3 at the spec's own examples: members 1,2 against 2,3
gives the union of both sides, and identical member sets (even reordered)
give the empty set. -/
theorem get_affected_chat_user_ids_spec_witness :
    get_affected_chat_user_ids (some (Chat.mk 1 1 none .group [1, 2] 0))
        (some (Chat.mk 1 1 none .group [2, 3] 0)) = ({1, 2, 3} : Finset ℕ)
    ∧ get_affected_chat_user_ids (some (Chat.mk 1 1 none .group [1, 2] 0))
        (some (Chat.mk 1 1 none .group [2, 1] 0)) = ∅ := by
  constructor
  · have h := get_affected_chat_user_ids_spec
      (Chat.mk 1 1 none .group [1, 2] 0) (Chat.mk 1 1 none .group [2, 3] 0)
      (by decide) (by decide)
    rw [h.2.1 (by decide)]
    decide
  · have h := get_affected_chat_user_ids_spec
      (Chat.mk 1 1 none .group [1, 2] 0) (Chat.mk 1 1 none .group [2, 1] 0)
      (by decide) (by decide)
    exact h.1.mpr (by decide)

/-- C6: every decodable `chat_message_added` payload yields the event
`NewMessage(message)` with affected set the member ids as a set: the cast
key set, on which duplicates collapse and order is irrelevant, and each
user id receives at most one delivery of the notification. -/
theorem load_new_message_spec (j : Json) (p : ChatMessageAdded)
    (h : ChatMessageAdded.fromJson j = .ok p) :
    Notification.load "chat_message_added" j =
      .ok ⟨membersKeySet p.members, .NewMessage p.message⟩
    ∧ membersKeySet p.members = membersKeySet p.members.dedup
    ∧ (∀ l, List.Perm l p.members → membersKeySet l = membersKeySet p.members)
    ∧ (∀ sendOk users uid,
        ((dispatchNotification sendOk
              ⟨membersKeySet p.members, .NewMessage p.message⟩
              users).delivered.map Prod.fst).count uid ≤ 1) := by
  refine ⟨load_chat_message_added j p h, ?_, ?_, ?_⟩
  · ext x
    simp [membersKeySet, List.mem_map, List.mem_dedup]
  · intro l hperm
    ext x
    simp only [membersKeySet, List.mem_toFinset, List.mem_map]
    constructor
    · rintro ⟨a, ha, rfl⟩
      exact ⟨a, hperm.mem_iff.mp ha, rfl⟩
    · rintro ⟨a, ha, rfl⟩
      exact ⟨a, hperm.mem_iff.mpr ha, rfl⟩
  · intro sendOk users uid
    exact dispatchNotification_count_le_one sendOk _ users uid

/-- Witness for C6: a payload listing member 1 twice still produces the
two-element key set, and user 1 is delivered to exactly once. -/
theorem load_new_message_spec_witness :
    Notification.load "chat_message_added"
        (Json.obj [("members", Json.arr [Json.num 1, Json.num 1, Json.num 2]),
          ("message", Json.obj [("id", Json.num 9), ("chat_id", Json.num 1),
            ("sender_id", Json.num 1), ("content", Json.str "hi"),
            ("files", Json.arr []), ("created_at", Json.num 0)])]) =
      .ok ⟨({1, 2} : Finset ℕ), .NewMessage (Message.mk 9 1 1 "hi" [] 0)⟩
    ∧ (∀ sendOk users uid,
        ((dispatchNotification sendOk
              ⟨membersKeySet [1, 1, 2], .NewMessage (Message.mk 9 1 1 "hi" [] 0)⟩
              users).delivered.map Prod.fst).count uid ≤ 1) := by
  have h := load_new_message_spec
    (Json.obj [("members", Json.arr [Json.num 1, Json.num 1, Json.num 2]),
      ("message", Json.obj [("id", Json.num 9), ("chat_id", Json.num 1),
        ("sender_id", Json.num 1), ("content", Json.str "hi"),
        ("files", Json.arr []), ("created_at", Json.num 0)])])
    ⟨[1, 1, 2], Message.mk 9 1 1 "hi" [] 0⟩ (by rfl)
  refine ⟨?_, h.2.2.2⟩
  rw [h.1]
  decide

/-- C7: a `chat_updated` payload whose op is none of INSERT, UPDATE,
DELETE, and a notification on a channel other than the three known ones,
both make the decoder return an error value (no panic). -/
theorem load_unknown_op_channel_err :
    (∀ j p, ChatUpdated.fromJson j = .ok p →
        p.op ≠ "INSERT" → p.op ≠ "UPDATE" → p.op ≠ "DELETE" →
        Notification.load "chat_updated" j =
          .err ("Unknown operation: " ++ p.op))
    ∧ (∀ ch j, ch ≠ "chat_updated" → ch ≠ "chat_message_added" →
        ch ≠ "chat_name_updated" →
        Notification.load ch j =
          .err ("Unknown notification type: " ++ ch)) :=
  ⟨fun j p h h1 h2 h3 => load_chat_updated_unknown_op j p h h1 h2 h3,
   fun ch j h1 h2 h3 => load_unknown_channel ch j h1 h2 h3⟩

/-- Witness for C7: op TRUNCATE and channel bogus both come back as error
values. -/
theorem load_unknown_op_channel_err_witness :
    Notification.load "chat_updated" (Json.obj [("op", Json.str "TRUNCATE")]) =
      .err ("Unknown operation: " ++ "TRUNCATE")
    ∧ Notification.load "bogus" Json.null =
      .err ("Unknown notification type: " ++ "bogus") :=
  ⟨load_unknown_op_channel_err.1 (Json.obj [("op", Json.str "TRUNCATE")])
      ⟨"TRUNCATE", none, none⟩ (by rfl) (by decide) (by decide) (by decide),
   load_unknown_op_channel_err.2 "bogus" Json.null
      (by decide) (by decide) (by decide)⟩

/-- C5 evaluated on the code: when a send to a registered user's sender
fails, the warning is logged but the removal never happens — the source
calls `users.remove` while the guard from `users.get` on the same key
still holds the shard read lock, so the step deadlocks with the entry
still present in the registry, and the remainder of the dispatch cycle
never runs; the claimed immediate removal within the same dispatch cycle
does not occur. -/
theorem dispatch_failed_send_deadlocks (sendOk : ℕ → Bool)
    (event : AppEvent) (users : UserMap) (uid tx : ℕ) (rest : List ℕ)
    (hreg : users uid = some tx) (hfail : sendOk tx = false) :
    dispatchOne sendOk event users uid =
      .deadlocked users []
        ["Failed to send notification to user " ++ toString uid]
    ∧ (dispatchOne sendOk event users uid).users uid = some tx
    ∧ dispatchAll sendOk event (uid :: rest) users =
        .deadlocked users []
          ["Failed to send notification to user " ++ toString uid] := by
  refine ⟨?_, ?_, ?_⟩
  · simp [dispatchOne, hreg, hfail]
  · simp [dispatchOne, hreg, hfail, DispatchResult.users]
  · simp [dispatchAll, dispatchOne, hreg, hfail]

/-- Witness for C5 at a concrete registry: user 1 holds sender 7 whose
send fails; the step deadlocks with the warning logged, entry 1 still
present, and user 2 (next in the cycle) never dispatched. -/
theorem dispatch_failed_send_deadlocks_witness :
    dispatchOne (fun _ => false) (.NewChat (Chat.mk 1 1 none .group [] 0))
        (fun u => if u = 1 then some 7 else if u = 2 then some 8 else none)
        1 =
      .deadlocked
        (fun u => if u = 1 then some 7 else if u = 2 then some 8 else none)
        [] ["Failed to send notification to user " ++ toString 1]
    ∧ (dispatchOne (fun _ => false) (.NewChat (Chat.mk 1 1 none .group [] 0))
        (fun u => if u = 1 then some 7 else if u = 2 then some 8 else none)
        1).users 1 = some 7
    ∧ dispatchAll (fun _ => false) (.NewChat (Chat.mk 1 1 none .group [] 0))
        [1, 2]
        (fun u => if u = 1 then some 7 else if u = 2 then some 8 else none) =
      .deadlocked
        (fun u => if u = 1 then some 7 else if u = 2 then some 8 else none)
        [] ["Failed to send notification to user " ++ toString 1] :=
  dispatch_failed_send_deadlocks (fun _ => false)
    (.NewChat (Chat.mk 1 1 none .group [] 0))
    (fun u => if u = 1 then some 7 else if u = 2 then some 8 else none)
    1 7 [2] (by simp) (by rfl)

/-- C9: the `verify_token` middleware answers Forbidden when token
verification fails and Unauthorized when the Authorization header is
missing or malformed, and in both cases the inner handler is never
invoked (so the request cannot reach or modify the registry). -/
theorem verify_token_rejects_spec (α : Type)
    (verify : String → Except String α) (next : α → Response)
    (tok e : String) (hv : verify tok = .error e) :
    (verify_token verify (.bearer tok) next).1.status = .forbidden
    ∧ (verify_token verify (.bearer tok) next).2 = false
    ∧ (∀ e2, (verify_token verify (.malformed e2) next).1.status =
          .unauthorized
        ∧ (verify_token verify (.malformed e2) next).2 = false) := by
  refine ⟨?_, ?_, ?_⟩
  · simp [verify_token, hv]
  · simp [verify_token, hv]
  · intro e2
    exact ⟨rfl, rfl⟩

/-- Witness for C9 with a verifier that rejects every token. -/
theorem verify_token_rejects_spec_witness :
    (verify_token (fun _ => (.error "invalid" : Except String Unit))
        (.bearer "t") (fun _ => ⟨.ok, "ok"⟩)).1.status = .forbidden
    ∧ (verify_token (fun _ => (.error "invalid" : Except String Unit))
        (.bearer "t") (fun _ => ⟨.ok, "ok"⟩)).2 = false
    ∧ (∀ e2, (verify_token (fun _ => (.error "invalid" : Except String Unit))
          (.malformed e2) (fun _ => ⟨.ok, "ok"⟩)).1.status = .unauthorized
        ∧ (verify_token (fun _ => (.error "invalid" : Except String Unit))
            (.malformed e2) (fun _ => ⟨.ok, "ok"⟩)).2 = false) :=
  verify_token_rejects_spec Unit (fun _ => .error "invalid")
    (fun _ => ⟨.ok, "ok"⟩) "t" "invalid" rfl

/-- C10: the decoder turns each signed 64-bit member id into the unsigned
registry key by the wrapping cast (the value modulo 2 to the 64); the
mapping is injective on the i64 range, a negative id lands at or above
2 to the 63 instead of being rejected, and a decodable payload holding a
negative member id still decodes successfully with the wrapped key in the
affected set. -/
theorem member_id_wrapping_cast_spec (v w : Int)
    (hv : I64Range v) (hw : I64Range w) :
    ((i64ToU64 v : Int) = v % 2 ^ 64)
    ∧ (i64ToU64 v = i64ToU64 w → v = w)
    ∧ (v < 0 → 2 ^ 63 ≤ i64ToU64 v)
    ∧ (∀ j p, ChatMessageAdded.fromJson j = .ok p → v ∈ p.members →
        Notification.load "chat_message_added" j =
          .ok ⟨membersKeySet p.members, .NewMessage p.message⟩
        ∧ i64ToU64 v ∈ membersKeySet p.members) := by
  refine ⟨i64ToU64_eq_emod v, fun h => i64ToU64_inj hv hw h,
    fun h => i64ToU64_neg hv h, ?_⟩
  intro j p hj hv2
  refine ⟨load_chat_message_added j p hj, ?_⟩
  simp only [membersKeySet, List.mem_toFinset, List.mem_map]
  exact ⟨v, hv2, rfl⟩

/-- Witness for C10 at member id -1: the key is 2 to the 64 minus 1, at
or above 2 to the 63, and a payload listing member -1 still decodes. -/
theorem member_id_wrapping_cast_spec_witness :
    I64Range (-1)
    ∧ 2 ^ 63 ≤ i64ToU64 (-1)
    ∧ Notification.load "chat_message_added"
        (Json.obj [("members", Json.arr [Json.num (-1)]),
          ("message", Json.obj [("id", Json.num 9), ("chat_id", Json.num 1),
            ("sender_id", Json.num 1), ("content", Json.str "hi"),
            ("files", Json.arr []), ("created_at", Json.num 0)])]) =
      .ok ⟨membersKeySet [-1], .NewMessage (Message.mk 9 1 1 "hi" [] 0)⟩
    ∧ i64ToU64 (-1) ∈ membersKeySet [-1] := by
  have h := member_id_wrapping_cast_spec (-1) 0 (by decide) (by decide)
  have h4 := h.2.2.2
    (Json.obj [("members", Json.arr [Json.num (-1)]),
      ("message", Json.obj [("id", Json.num 9), ("chat_id", Json.num 1),
        ("sender_id", Json.num 1), ("content", Json.str "hi"),
        ("files", Json.arr []), ("created_at", Json.num 0)])])
    ⟨[-1], Message.mk 9 1 1 "hi" [] 0⟩ (by rfl) (by decide)
  exact ⟨by decide, h.2.2.1 (by decide), h4.1, h4.2⟩

/-- C8: serializing any `AppEvent` variant and deserializing the result
yields an equal value, and the serialized form carries the variant tag
explicitly in the `event` field. -/
theorem appEvent_serde_roundtrip (e : AppEvent) :
    AppEvent.fromJson (AppEvent.toJson e) = .ok e
    ∧ (AppEvent.toJson e).getField "event" =
        some (.str (AppEvent.tag e)) := by
  cases e <;>
    refine ⟨?_, by simp [AppEvent.toJson, AppEvent.tag]⟩ <;>
    simp [AppEvent.toJson, AppEvent.fromJson, Json.reqField, Json.getStr,
      chat_fromJson_roundtrip, message_fromJson_roundtrip,
      chatNameUpdated_fromJson_roundtrip, Bind.bind, Except.bind,
      Except.map]

/-- Counterexample to C4 as stated: an INSERT payload in which an old
chat also appears does not get affected set = members(new); the
membership-diff policy runs on both sides, yielding the union 1,2 instead
of just 2. -/
theorem load_insert_with_old_cex :
    Notification.load "chat_updated"
        (Json.obj [("op", Json.str "INSERT"),
          ("old", Json.obj [("id", Json.num 1), ("ws_id", Json.num 1),
            ("name", Json.null), ("type", Json.str "group"),
            ("members", Json.arr [Json.num 1]), ("created_at", Json.num 0)]),
          ("new", Json.obj [("id", Json.num 1), ("ws_id", Json.num 1),
            ("name", Json.null), ("type", Json.str "group"),
            ("members", Json.arr [Json.num 2]), ("created_at", Json.num 0)])]) =
      .ok ⟨({1, 2} : Finset ℕ),
        .NewChat (Chat.mk 1 1 none .group [2] 0)⟩
    ∧ ({1, 2} : Finset ℕ) ≠
        memberIdSet (Chat.mk 1 1 none .group [2] 0) := by
  constructor
  · decide
  · decide

/-- C4 amended: op INSERT with new present yields NewChat(new), and op
DELETE with old present yields RemoveFromChat(old); the affected set is
always `get_affected_chat_user_ids old new`, which equals members(new)
(respectively members(old)) only when the other side is absent — when
both sides appear, the membership-diff policy governs instead. -/
theorem load_insert_delete_affected_amended (j : Json) (p : ChatUpdated)
    (h : ChatUpdated.fromJson j = .ok p) :
    (∀ n, p.op = "INSERT" → p.new = some n →
        Notification.load "chat_updated" j =
          .ok ⟨get_affected_chat_user_ids p.old p.new, .NewChat n⟩
        ∧ (p.old = none →
            get_affected_chat_user_ids p.old p.new = memberIdSet n))
    ∧ (∀ o, p.op = "DELETE" → p.old = some o →
        Notification.load "chat_updated" j =
          .ok ⟨get_affected_chat_user_ids p.old p.new, .RemoveFromChat o⟩
        ∧ (p.new = none →
            get_affected_chat_user_ids p.old p.new = memberIdSet o)) := by
  constructor
  · intro n hop hnew
    refine ⟨load_chat_updated_insert j p n h hop hnew, ?_⟩
    intro holdn
    rw [holdn, hnew]
    rfl
  · intro o hop hold
    refine ⟨load_chat_updated_delete j p o h hop hold, ?_⟩
    intro hnewn
    rw [hnewn, hold]
    rfl

/-- Witness for the amended C4 at the spec's INSERT example: new members
1,2,3 and no old side gives affected set 1,2,3 and event NewChat(new). -/
theorem load_insert_delete_affected_amended_witness :
    Notification.load "chat_updated"
        (Json.obj [("op", Json.str "INSERT"),
          ("new", Json.obj [("id", Json.num 1), ("ws_id", Json.num 1),
            ("name", Json.null), ("type", Json.str "group"),
            ("members", Json.arr [Json.num 1, Json.num 2, Json.num 3]),
            ("created_at", Json.num 0)])]) =
      .ok ⟨({1, 2, 3} : Finset ℕ),
        .NewChat (Chat.mk 1 1 none .group [1, 2, 3] 0)⟩ := by
  have h := (load_insert_delete_affected_amended
    (Json.obj [("op", Json.str "INSERT"),
      ("new", Json.obj [("id", Json.num 1), ("ws_id", Json.num 1),
        ("name", Json.null), ("type", Json.str "group"),
        ("members", Json.arr [Json.num 1, Json.num 2, Json.num 3]),
        ("created_at", Json.num 0)])])
    ⟨"INSERT", none, some (Chat.mk 1 1 none .group [1, 2, 3] 0)⟩
    (by rfl)).1 (Chat.mk 1 1 none .group [1, 2, 3] 0) rfl rfl
  rw [h.1]
  decide

/-- Counterexample to C2 as stated: an INSERT payload without `new` (and
a DELETE payload without `old`) makes the decoder panic through `expect`
— the outcome is a panic, not a returned error value. -/
theorem load_missing_required_field_cex :
    Notification.load "chat_updated" (Json.obj [("op", Json.str "INSERT")]) =
      .panic "new should exist"
    ∧ (Notification.load "chat_updated"
          (Json.obj [("op", Json.str "INSERT")])).isErr = false
    ∧ Notification.load "chat_updated" (Json.obj [("op", Json.str "DELETE")]) =
      .panic "old should exist"
    ∧ (Notification.load "chat_updated"
          (Json.obj [("op", Json.str "DELETE")])).isErr = false := by
  refine ⟨by decide, by decide, by decide, by decide⟩

/-- C2 amended: for every `chat_updated` payload with op INSERT and `new`
absent, and op DELETE and `old` absent, the decoder treats the missing
side as fatal by panicking (`expect`), rather than returning the failure
as an error value. -/
theorem load_missing_required_field_amended (j : Json) (p : ChatUpdated)
    (h : ChatUpdated.fromJson j = .ok p) :
    (p.op = "INSERT" → p.new = none →
        Notification.load "chat_updated" j = .panic "new should exist")
    ∧ (p.op = "DELETE" → p.old = none →
        Notification.load "chat_updated" j = .panic "old should exist") :=
  ⟨fun hop hnew => load_chat_updated_insert_missing j p h hop hnew,
   fun hop hold => load_chat_updated_delete_missing j p h hop hold⟩

/-- Witness for the amended C2 at concrete payloads with the required
side missing. -/
theorem load_missing_required_field_amended_witness :
    Notification.load "chat_updated"
        (Json.obj [("op", Json.str "INSERT"), ("old", Json.null)]) =
      .panic "new should exist"
    ∧ Notification.load "chat_updated"
        (Json.obj [("op", Json.str "DELETE"), ("new", Json.null)]) =
      .panic "old should exist" :=
  ⟨(load_missing_required_field_amended
      (Json.obj [("op", Json.str "INSERT"), ("old", Json.null)])
      ⟨"INSERT", none, none⟩ (by rfl)).1 rfl rfl,
   (load_missing_required_field_amended
      (Json.obj [("op", Json.str "DELETE"), ("new", Json.null)])
      ⟨"DELETE", none, none⟩ (by rfl)).2 rfl rfl⟩

/-- C1 evaluated on the code: a malformed payload on the known channel
`chat_updated` makes the listener loop panic (through `unwrap`) with no
deliveries — the next valid notification on the stream is never decoded
or delivered — whereas the same valid notification alone is delivered;
decode failures are fatal to the loop, contradicting the stated design
that they are logged, the offending notification dropped, and the loop
continues. -/
theorem listener_decode_failure_terminates_loop :
    (listenerLoop (fun _ => true)
        [.ok "chat_updated" (Json.str "oops"),
         .ok "chat_name_updated"
           (Json.obj [("chat_id", Json.num 1), ("old_name", Json.str "a"),
             ("new_name", Json.str "b"),
             ("members", Json.arr [Json.num 1])])]
        (fun u => if u = 1 then some 0 else none)).2 =
      ([], .panicked "called unwrap on an Err value: missing field op")
    ∧ (listenerLoop (fun _ => true)
        [.ok "chat_name_updated"
           (Json.obj [("chat_id", Json.num 1), ("old_name", Json.str "a"),
             ("new_name", Json.str "b"),
             ("members", Json.arr [Json.num 1])])]
        (fun u => if u = 1 then some 0 else none)).2 =
      ([(1, .ChatNameUpdated ⟨1, "a", "b", [1]⟩)], .finished) := by
  have hload : Notification.load "chat_name_updated"
      (Json.obj [("chat_id", Json.num 1), ("old_name", Json.str "a"),
        ("new_name", Json.str "b"), ("members", Json.arr [Json.num 1])]) =
      .ok ⟨membersKeySet [1], .ChatNameUpdated ⟨1, "a", "b", [1]⟩⟩ := by
    decide
  have hset : membersKeySet [1] = ({1} : Finset ℕ) := by decide
  have hsort : Finset.sort (· ≤ ·) ({1} : Finset ℕ) = [1] :=
    Finset.sort_singleton (· ≤ ·) 1
  constructor
  · decide
  · simp only [listenerLoop, hload, dispatchNotification, hset, hsort,
      dispatchAll, dispatchOne]
    norm_num
